import Mathlib

/-!
Verification of the homework status bot (src/homework.py) against its
specification. The Python module is shallowly embedded: JSON-like Python
values become the inductive `PyVal`, raised exceptions become the error
side of `Except`, and the effectful pieces (the HTTP transport and the
Telegram delivery call) become explicit function parameters.
-/

namespace HomeworkBot

/-- A Python value as it can appear in a parsed JSON response: `None`,
booleans, integers, strings, lists and string-keyed dictionaries
(association lists, first binding wins on lookup). -/
inductive PyVal where
  | none
  | bool (b : Bool)
  | int (n : Int)
  | str (s : String)
  | list (items : List PyVal)
  | dict (entries : List (String × PyVal))
deriving Repr

/-- Python `repr` on the `PyVal` fragment: `None`, `True`/`False`, decimal
integers, single-quoted strings (escaping is not modelled; the values used
here contain no quotes), bracketed lists and braced dicts. -/
def pyRepr : PyVal → String
  | PyVal.none => "None"
  | PyVal.bool true => "True"
  | PyVal.bool false => "False"
  | PyVal.int n => toString n
  | PyVal.str s => "\x27" ++ s ++ "\x27"
  | PyVal.list items => "[" ++ String.intercalate ", " (pyReprList items) ++ "]"
  | PyVal.dict entries => "\x7b" ++ String.intercalate ", " (pyReprKVs entries) ++ "\x7d"
where
  pyReprList : List PyVal → List String
    | [] => []
    | x :: xs => pyRepr x :: pyReprList xs
  pyReprKVs : List (String × PyVal) → List String
    | [] => []
    | (k, v) :: xs => ("\x27" ++ k ++ "\x27: " ++ pyRepr v) :: pyReprKVs xs

/-- Python `str` (what an f-string interpolation produces): strings render
as themselves, everything else as its `repr`. -/
def pyStr : PyVal → String
  | PyVal.str s => s
  | v => pyRepr v

/-- Python `dict.get(key)`: the stored value, or `None` when the key is
absent. -/
def dictGet : List (String × PyVal) → String → PyVal
  | [], _ => PyVal.none
  | (k, v) :: rest, key => if k = key then v else dictGet rest key

/-- Lookup in a string-to-string dictionary (`HOMEWORK_VERDICTS`). -/
def vlookup : List (String × String) → String → Option String
  | [], _ => Option.none
  | (k, v) :: rest, key => if k = key then Option.some v else vlookup rest key

def isNone : PyVal → Bool
  | PyVal.none => true
  | _ => false

def isDict : PyVal → Bool
  | PyVal.dict _ => true
  | _ => false

def isList : PyVal → Bool
  | PyVal.list _ => true
  | _ => false

/-- Whether a Python value is hashable: lists and dicts are not, and using
one as the left operand of `in` on a dict raises `TypeError`. -/
def hashableVal : PyVal → Bool
  | PyVal.list _ => false
  | PyVal.dict _ => false
  | _ => true

/-- The exception kinds this module can raise. `typeError`, `keyError`,
`indexError` and `attributeError` are the Python built-ins. The repository
also imports `HTTPStatusError` and `RequestError` from its `exceptions`
module, which is not under src/. Modelled from the spec: those two are
distinct error kinds — an `HTTPStatusError` signals a non-success HTTP
status, a `RequestError` wraps a transport failure — and neither is a
`requests` `RequestException`, so an `HTTPStatusError` raised inside the
`try` of `get_api_answer` is not captured by its `except` clause. -/
inductive PyError where
  | typeError (msg : String)
  | keyError (msg : String)
  | indexError (msg : String)
  | attributeError (msg : String)
  | httpStatusError (msg : String)
  | requestError (msg : String)
deriving DecidableEq, Repr

/-- Python `str` of an exception: for `KeyError` this is the `repr` of its
argument (so the message comes out quoted); for the other kinds it is the
message itself. -/
def errStr : PyError → String
  | PyError.typeError m => m
  | PyError.keyError m => "\x27" ++ m ++ "\x27"
  | PyError.indexError m => m
  | PyError.attributeError m => m
  | PyError.httpStatusError m => m
  | PyError.requestError m => m

/-- `RETRY_PERIOD = 600` (seconds) from the source. -/
def RETRY_PERIOD : Nat := 600

/-- `HOMEWORK_VERDICTS` from the source: the verdict catalog. -/
def HOMEWORK_VERDICTS : List (String × String) :=
  [("approved", "Работа проверена: ревьюеру всё понравилось. Ура!"),
   ("reviewing", "Работа взята на проверку ревьюером."),
   ("rejected", "Работа проверена: у ревьюера есть замечания.")]

/-- Python `value in HOMEWORK_VERDICTS` (dict key membership): raises
`TypeError` on an unhashable operand, otherwise tests membership in the
key set; only strings can equal a string key. -/
def dictContains (d : List (String × String)) : PyVal → Except PyError Bool
  | PyVal.list _ => Except.error (PyError.typeError "unhashable type: \x27list\x27")
  | PyVal.dict _ => Except.error (PyError.typeError "unhashable type: \x27dict\x27")
  | PyVal.str s => Except.ok (vlookup d s).isSome
  | _ => Except.ok false

/-- Python `HOMEWORK_VERDICTS[value]` (dict subscript): `TypeError` on an
unhashable key, `KeyError` carrying the `repr` of an absent key, the
stored verdict otherwise. -/
def dictIndex (d : List (String × String)) : PyVal → Except PyError String
  | PyVal.list _ => Except.error (PyError.typeError "unhashable type: \x27list\x27")
  | PyVal.dict _ => Except.error (PyError.typeError "unhashable type: \x27dict\x27")
  | PyVal.str s =>
    match vlookup d s with
    | Option.some v => Except.ok v
    | Option.none => Except.error (PyError.keyError (pyRepr (PyVal.str s)))
  | v => Except.error (PyError.keyError (pyRepr v))

/-- Python `value.get(key)` on an arbitrary value: only dicts have a `get`
method, anything else raises `AttributeError`. -/
def pyGet (v : PyVal) (key : String) : Except PyError PyVal :=
  match v with
  | PyVal.dict entries => Except.ok (dictGet entries key)
  | _ => Except.error (PyError.attributeError "object has no attribute get")

/-- Python `value[i]` for a natural index: `IndexError` past the end of a
list, `TypeError` on a non-subscriptable value. -/
def pyIndex (v : PyVal) (i : Nat) : Except PyError PyVal :=
  match v with
  | PyVal.list items =>
    match items.get? i with
    | Option.some x => Except.ok x
    | Option.none => Except.error (PyError.indexError "list index out of range")
  | _ => Except.error (PyError.typeError "object is not subscriptable")

/-- `check_tokens` iterates `[PRACTICUM_TOKEN, TELEGRAM_TOKEN,
TELEGRAM_CHAT_ID]` and calls `sys.exit("Программа остановлена")` at the
first variable that `is None`; `sys.exit` with a string argument is a
non-zero (code 1) termination, modelled as the error side. -/
def checkEnvVars : List (Option String) → Except String Unit
  | [] => Except.ok ()
  | v :: rest =>
    match v with
    | Option.none => Except.error "Программа остановлена"
    | Option.some _ => checkEnvVars rest

/-- `check_tokens` from the source, applied to the three credential
environment variables (each `Option.none` when the variable is unset). -/
def check_tokens (practicumToken telegramToken telegramChatId : Option String) :
    Except String Unit :=
  checkEnvVars [practicumToken, telegramToken, telegramChatId]

/-- `send_message` from the source: `bot.send_message` (the `deliver`
parameter) runs inside `try`; any exception it raises is caught and handed
to `logger.exception`. The returned value records the logged exception, if
any; the `Except` layer is the exceptions `send_message` itself lets
escape. -/
def send_message (deliver : String → Except PyError Unit) (message : String) :
    Except PyError (Option PyError) :=
  match deliver message with
  | Except.ok _ => Except.ok Option.none
  | Except.error error => Except.ok (Option.some error)

/-- Outcome of one `requests.get` exchange: either a response with a
status code and a parsed JSON body, or a `requests` transport failure
(`RequestException`) with its message. -/
inductive HttpResult where
  | response (statusCode : Nat) (body : PyVal)
  | transportError (message : String)

/-- `get_api_answer` from the source: one GET with `from_date=timestamp`;
a non-200 status raises `HTTPStatusError("Ответ не получен")`; a
`RequestException` from the transport is re-raised as
`RequestError("Ошибка при запросе к API: " + str(error))`; a 200 response
returns the parsed body. -/
def get_api_answer (transport : Int → HttpResult) (timestamp : Int) :
    Except PyError PyVal :=
  match transport timestamp with
  | HttpResult.response statusCode body =>
    if statusCode ≠ 200 then
      Except.error (PyError.httpStatusError "Ответ не получен")
    else
      Except.ok body
  | HttpResult.transportError msg =>
    Except.error (PyError.requestError ("Ошибка при запросе к API: " ++ msg))

/-- `check_response` from the source: `TypeError("Не является словарем")`
when the response is not a dict, `TypeError("Не является списком")` when
`response.get("homeworks")` is not a list, otherwise that list. -/
def check_response (response : PyVal) : Except PyError PyVal :=
  match response with
  | PyVal.dict entries =>
    let homeworks := dictGet entries "homeworks"
    match homeworks with
    | PyVal.list _ => Except.ok homeworks
    | _ => Except.error (PyError.typeError "Не является списком")
  | _ => Except.error (PyError.typeError "Не является словарем")

/-- `parse_status` from the source: `homework.get("homework_name")` that
`is None` raises `KeyError("Нет ключа в словаре")`; then a status that is
`not in HOMEWORK_VERDICTS or is None` raises
`KeyError("Некорректный статус домашки " + str(status))` (the membership
test itself raises `TypeError` on an unhashable status); otherwise the
message is rendered from the name and the catalog verdict. -/
def parse_status (homework : PyVal) : Except PyError String :=
  match pyGet homework "homework_name" with
  | Except.error e => Except.error e
  | Except.ok homework_name =>
    if isNone homework_name then
      Except.error (PyError.keyError "Нет ключа в словаре")
    else
      match pyGet homework "status" with
      | Except.error e => Except.error e
      | Except.ok status =>
        match dictContains HOMEWORK_VERDICTS status with
        | Except.error e => Except.error e
        | Except.ok mem =>
          if !mem || isNone status then
            Except.error
              (PyError.keyError ("Некорректный статус домашки " ++ pyStr status))
          else
            match dictIndex HOMEWORK_VERDICTS status with
            | Except.error e => Except.error e
            | Except.ok verdict =>
              Except.ok ("Изменился статус проверки работы \"" ++
                pyStr homework_name ++ "\". " ++ verdict)

/-- The external collaborators of one poll cycle: the HTTP transport
behind `requests.get` and the Telegram delivery behind
`bot.send_message`. -/
structure Env where
  transport : Int → HttpResult
  deliver : String → Except PyError Unit

/-- The `try` block of one iteration of `main`'s loop:
`get_api_answer(timestamp)`, `check_response(response)` (result
discarded, as in the source), `response.get("homeworks")`,
`homeworks[0]`, `parse_status(homework)`. -/
def cycleBody (env : Env) (ts : Int) : Except PyError String :=
  match get_api_answer env.transport ts with
  | Except.error e => Except.error e
  | Except.ok response =>
    match check_response response with
    | Except.error e => Except.error e
    | Except.ok _ =>
      match pyGet response "homeworks" with
      | Except.error e => Except.error e
      | Except.ok homeworks =>
        match pyIndex homeworks 0 with
        | Except.error e => Except.error e
        | Except.ok homework => parse_status homework

/-- Observable outcome of one loop iteration: the timestamp passed to
`get_api_answer`, the timestamp the next iteration will use (the source
never reassigns it), the exception the `except Exception` arm caught (if
any), the messages handed to `send_message`, the results of those
`send_message` calls, and the seconds slept in the `finally` arm. -/
structure CycleResult where
  usedTimestamp : Int
  nextTimestamp : Int
  caught : Option PyError
  sent : List String
  notifyLog : List (Except PyError (Option PyError))
  sleep : Nat

/-- One iteration of `main`'s `while True` loop: on success the rendered
message is sent; on any exception `e` the text
`"Возникновение ошибки: " + str(e)` is logged and sent; either way the
`finally` arm sleeps `RETRY_PERIOD` and the timestamp is unchanged. -/
def runCycle (env : Env) (ts : Int) : CycleResult :=
  match cycleBody env ts with
  | Except.ok message =>
    { usedTimestamp := ts, nextTimestamp := ts, caught := Option.none,
      sent := [message], notifyLog := [send_message env.deliver message],
      sleep := RETRY_PERIOD }
  | Except.error e =>
    let message := "Возникновение ошибки: " ++ errStr e
    { usedTimestamp := ts, nextTimestamp := ts, caught := Option.some e,
      sent := [message], notifyLog := [send_message env.deliver message],
      sleep := RETRY_PERIOD }

/-- The first `n` iterations of the loop, threading the timestamp each
iteration hands to the next. -/
def runLoop (env : Env) (ts : Int) : Nat → List CycleResult
  | 0 => []
  | Nat.succ n =>
    let r := runCycle env ts
    r :: runLoop env r.nextTimestamp n

/-- `main` from the source, observed for `n` loop iterations:
`check_tokens()` first (its `sys.exit` is the error side, and then no
iteration runs), then the loop starting from `timestamp = 0`. -/
def mainRun (practicumToken telegramToken telegramChatId : Option String)
    (env : Env) (n : Nat) : Except String (List CycleResult) :=
  match check_tokens practicumToken telegramToken telegramChatId with
  | Except.error e => Except.error e
  | Except.ok _ => Except.ok (runLoop env 0 n)

/-- Whether a value is a member of the verdict catalog key set (only a
string can be; unhashable values are excluded before this test applies). -/
def knownStatus : PyVal → Bool
  | PyVal.str s => (vlookup HOMEWORK_VERDICTS s).isSome
  | _ => false

/-! ## Theorems for the claims -/

/-- Success path of `parse_status`: a present (non-`None`) name and a
status string found in the catalog render the message from the name and
the catalog verdict. -/
theorem parse_status_ok (entries : List (String × PyVal)) (nm : PyVal)
    (s verdict : String)
    (hnm : dictGet entries "homework_name" = nm) (hn : isNone nm = false)
    (hst : dictGet entries "status" = PyVal.str s)
    (hv : vlookup HOMEWORK_VERDICTS s = Option.some verdict) :
    parse_status (PyVal.dict entries)
      = Except.ok ("Изменился статус проверки работы \"" ++ pyStr nm ++ "\". " ++ verdict) := by
  have h1 : isNone (PyVal.str s) = false := rfl
  simp [parse_status, pyGet, hnm, hn, hst, dictContains, dictIndex, hv, h1]

/-- C2 counterexample: the verdict catalog holds three statuses, not
four, and the rendered message uses the Russian source template, not
`Status changed for submission ...`: on the record with name `Project X`
and status `approved` the formatter returns exactly the Russian text. -/
theorem c2_counterexample :
    HOMEWORK_VERDICTS.map Prod.fst = ["approved", "reviewing", "rejected"]
  ∧ HOMEWORK_VERDICTS.length = 3
  ∧ HOMEWORK_VERDICTS.length ≠ 4
  ∧ parse_status (PyVal.dict
      [("homework_name", PyVal.str "Project X"), ("status", PyVal.str "approved")])
      = Except.ok
          "Изменился статус проверки работы \"Project X\". Работа проверена: ревьюеру всё понравилось. Ура!" :=
  ⟨rfl, rfl, by decide, rfl⟩

/-- C2 (amended): for every record whose status is one of the three known
status values of the verdict catalog and whose name is present, the
formatter succeeds and returns the Russian template with the name and the
configured verdict phrase interpolated, containing the record name and
the exact verdict phrase verbatim. -/
theorem c2_formatter_known_statuses (entries : List (String × PyVal)) (nm : PyVal)
    (s verdict : String)
    (hnm : dictGet entries "homework_name" = nm) (hn : isNone nm = false)
    (hst : dictGet entries "status" = PyVal.str s)
    (hv : vlookup HOMEWORK_VERDICTS s = Option.some verdict) :
    parse_status (PyVal.dict entries)
      = Except.ok ("Изменился статус проверки работы \"" ++ pyStr nm ++ "\". " ++ verdict)
  ∧ (∃ a b, ("Изменился статус проверки работы \"" ++ pyStr nm ++ "\". " ++ verdict)
        = a ++ pyStr nm ++ b)
  ∧ (∃ c, ("Изменился статус проверки работы \"" ++ pyStr nm ++ "\". " ++ verdict)
        = c ++ verdict) := by
  refine ⟨parse_status_ok entries nm s verdict hnm hn hst hv, ?_, ?_⟩
  · exact ⟨"Изменился статус проверки работы \"", "\". " ++ verdict, by
      rw [String.append_assoc, String.append_assoc]⟩
  · exact ⟨"Изменился статус проверки работы \"" ++ pyStr nm ++ "\". ", by
      rw [String.append_assoc, String.append_assoc]⟩

/-- Witness for C2 at each of the three catalog statuses. -/
theorem c2_witness :
    parse_status (PyVal.dict
        [("homework_name", PyVal.str "Project X"), ("status", PyVal.str "approved")])
      = Except.ok ("Изменился статус проверки работы \"" ++ pyStr (PyVal.str "Project X")
          ++ "\". " ++ "Работа проверена: ревьюеру всё понравилось. Ура!")
  ∧ parse_status (PyVal.dict
        [("homework_name", PyVal.str "Project X"), ("status", PyVal.str "reviewing")])
      = Except.ok ("Изменился статус проверки работы \"" ++ pyStr (PyVal.str "Project X")
          ++ "\". " ++ "Работа взята на проверку ревьюером.")
  ∧ parse_status (PyVal.dict
        [("homework_name", PyVal.str "Project X"), ("status", PyVal.str "rejected")])
      = Except.ok ("Изменился статус проверки работы \"" ++ pyStr (PyVal.str "Project X")
          ++ "\". " ++ "Работа проверена: у ревьюера есть замечания.") :=
  ⟨(c2_formatter_known_statuses
      [("homework_name", PyVal.str "Project X"), ("status", PyVal.str "approved")]
      (PyVal.str "Project X") "approved"
      "Работа проверена: ревьюеру всё понравилось. Ура!" rfl rfl rfl rfl).1,
   (c2_formatter_known_statuses
      [("homework_name", PyVal.str "Project X"), ("status", PyVal.str "reviewing")]
      (PyVal.str "Project X") "reviewing"
      "Работа взята на проверку ревьюером." rfl rfl rfl rfl).1,
   (c2_formatter_known_statuses
      [("homework_name", PyVal.str "Project X"), ("status", PyVal.str "rejected")]
      (PyVal.str "Project X") "rejected"
      "Работа проверена: у ревьюера есть замечания." rfl rfl rfl rfl).1⟩

/-- C10: the formatter validates nothing about the name beyond presence:
any non-`None` name value (empty string and non-string values included)
paired with a known status yields a message with that value interpolated
directly (via Python `str`). -/
theorem c10_name_not_validated (entries : List (String × PyVal)) (nm : PyVal)
    (s verdict : String)
    (hnm : dictGet entries "homework_name" = nm) (hn : isNone nm = false)
    (hst : dictGet entries "status" = PyVal.str s)
    (hv : vlookup HOMEWORK_VERDICTS s = Option.some verdict) :
    ∃ msg, parse_status (PyVal.dict entries) = Except.ok msg
      ∧ msg = "Изменился статус проверки работы \"" ++ pyStr nm ++ "\". " ++ verdict :=
  ⟨_, parse_status_ok entries nm s verdict hnm hn hst hv, rfl⟩

/-- Witness for C10 at an empty-string name and at an integer name. -/
theorem c10_witness :
    (∃ msg, parse_status (PyVal.dict
        [("homework_name", PyVal.str ""), ("status", PyVal.str "reviewing")])
      = Except.ok msg
      ∧ msg = "Изменился статус проверки работы \"" ++ pyStr (PyVal.str "")
          ++ "\". " ++ "Работа взята на проверку ревьюером.")
  ∧ (∃ msg, parse_status (PyVal.dict
        [("homework_name", PyVal.int 7), ("status", PyVal.str "rejected")])
      = Except.ok msg
      ∧ msg = "Изменился статус проверки работы \"" ++ pyStr (PyVal.int 7)
          ++ "\". " ++ "Работа проверена: у ревьюера есть замечания.") :=
  ⟨c10_name_not_validated
      [("homework_name", PyVal.str ""), ("status", PyVal.str "reviewing")]
      (PyVal.str "") "reviewing" "Работа взята на проверку ревьюером." rfl rfl rfl rfl,
   c10_name_not_validated
      [("homework_name", PyVal.int 7), ("status", PyVal.str "rejected")]
      (PyVal.int 7) "rejected" "Работа проверена: у ревьюера есть замечания." rfl rfl rfl rfl⟩

/-- C3 counterexample: on a record whose status is an (unhashable) list,
the membership test `status not in HOMEWORK_VERDICTS` raises `TypeError`,
not a `KeyError`-kind error as the claim states for every non-member
status. -/
theorem c3_counterexample :
    parse_status (PyVal.dict
        [("homework_name", PyVal.str "hw"), ("status", PyVal.list [])])
      = Except.error (PyError.typeError "unhashable type: \x27list\x27")
  ∧ ∀ m, parse_status (PyVal.dict
        [("homework_name", PyVal.str "hw"), ("status", PyVal.list [])])
      ≠ Except.error (PyError.keyError m) := by
  refine ⟨rfl, ?_⟩
  intro m h
  rw [show parse_status (PyVal.dict
        [("homework_name", PyVal.str "hw"), ("status", PyVal.list [])])
      = Except.error (PyError.typeError "unhashable type: \x27list\x27") from rfl] at h
  simp at h

/-- C3 (amended): a record whose name is absent or null fails with
`KeyError("Нет ключа в словаре")` independent of status validity; a
record whose status is absent or a hashable value outside the verdict
catalog key set fails with a `KeyError` carrying the offending value; an
unhashable status (a list or a mapping) instead fails with a `TypeError`
from the membership test; in no failure case is a message returned. -/
theorem c3_parse_status_failures (entries : List (String × PyVal)) :
    (dictGet entries "homework_name" = PyVal.none →
       parse_status (PyVal.dict entries)
         = Except.error (PyError.keyError "Нет ключа в словаре"))
  ∧ (∀ nm st, dictGet entries "homework_name" = nm → isNone nm = false →
       dictGet entries "status" = st → hashableVal st = true →
       knownStatus st = false →
       parse_status (PyVal.dict entries)
         = Except.error
             (PyError.keyError ("Некорректный статус домашки " ++ pyStr st)))
  ∧ (∀ nm st, dictGet entries "homework_name" = nm → isNone nm = false →
       dictGet entries "status" = st → hashableVal st = false →
       ∃ m, parse_status (PyVal.dict entries)
         = Except.error (PyError.typeError m)) := by
  refine ⟨?_, ?_, ?_⟩
  · intro h
    simp [parse_status, pyGet, h, isNone]
  · intro nm st hnm hn hst hh hk
    cases st with
    | none =>
      have h1 : isNone PyVal.none = true := rfl
      simp [parse_status, pyGet, hnm, hn, hst, dictContains, h1]
    | bool b =>
      have h1 : isNone (PyVal.bool b) = false := rfl
      simp [parse_status, pyGet, hnm, hn, hst, dictContains, h1]
    | int n =>
      have h1 : isNone (PyVal.int n) = false := rfl
      simp [parse_status, pyGet, hnm, hn, hst, dictContains, h1]
    | str s =>
      have hmem : (vlookup HOMEWORK_VERDICTS s).isSome = false := by
        simpa [knownStatus] using hk
      have h1 : isNone (PyVal.str s) = false := rfl
      simp [parse_status, pyGet, hnm, hn, hst, dictContains, hmem, h1]
    | list items => simp [hashableVal] at hh
    | dict entries2 => simp [hashableVal] at hh
  · intro nm st hnm hn hst hh
    cases st with
    | none => simp [hashableVal] at hh
    | bool b => simp [hashableVal] at hh
    | int n => simp [hashableVal] at hh
    | str s => simp [hashableVal] at hh
    | list items =>
      exact ⟨"unhashable type: \x27list\x27", by
        simp [parse_status, pyGet, hnm, hn, hst, dictContains]⟩
    | dict entries2 =>
      exact ⟨"unhashable type: \x27dict\x27", by
        simp [parse_status, pyGet, hnm, hn, hst, dictContains]⟩

/-- Witness for C3 at a record missing the name, a record with the
unrecognized status `pending`, a record missing the status, and a record
with a dict-valued (unhashable) status. -/
theorem c3_witness :
    parse_status (PyVal.dict [("status", PyVal.str "approved")])
      = Except.error (PyError.keyError "Нет ключа в словаре")
  ∧ parse_status (PyVal.dict
        [("homework_name", PyVal.str "hw"), ("status", PyVal.str "pending")])
      = Except.error (PyError.keyError
          ("Некорректный статус домашки " ++ pyStr (PyVal.str "pending")))
  ∧ parse_status (PyVal.dict [("homework_name", PyVal.str "hw")])
      = Except.error (PyError.keyError
          ("Некорректный статус домашки " ++ pyStr PyVal.none))
  ∧ (∃ m, parse_status (PyVal.dict
        [("homework_name", PyVal.str "hw"), ("status", PyVal.dict [])])
      = Except.error (PyError.typeError m)) :=
  ⟨(c3_parse_status_failures [("status", PyVal.str "approved")]).1 rfl,
   (c3_parse_status_failures
      [("homework_name", PyVal.str "hw"), ("status", PyVal.str "pending")]).2.1
      (PyVal.str "hw") (PyVal.str "pending") rfl rfl rfl rfl rfl,
   (c3_parse_status_failures [("homework_name", PyVal.str "hw")]).2.1
      (PyVal.str "hw") PyVal.none rfl rfl rfl rfl rfl,
   (c3_parse_status_failures
      [("homework_name", PyVal.str "hw"), ("status", PyVal.dict [])]).2.2
      (PyVal.str "hw") (PyVal.dict []) rfl rfl rfl rfl⟩

/-- C8: for every message string and every exception raised by the
underlying bot client during delivery, `send_message` catches the
exception and logs it; it never re-raises, so a delivery failure never
propagates to the calling cycle. -/
theorem c8_send_message_never_raises (deliver : String → Except PyError Unit)
    (message : String) :
    (∃ log, send_message deliver message = Except.ok log)
  ∧ (∀ e, deliver message = Except.error e →
       send_message deliver message = Except.ok (Option.some e))
  ∧ (deliver message = Except.ok () →
       send_message deliver message = Except.ok Option.none) := by
  refine ⟨?_, ?_, ?_⟩
  · cases h : deliver message with
    | ok v => exact ⟨Option.none, by simp [send_message, h]⟩
    | error e => exact ⟨Option.some e, by simp [send_message, h]⟩
  · intro e he
    simp [send_message, he]
  · intro h
    simp [send_message, h]

/-- Witness for C8 at a delivery that raises. -/
theorem c8_witness :
    send_message (fun _ => Except.error (PyError.requestError "boom")) "hello"
      = Except.ok (Option.some (PyError.requestError "boom")) :=
  (c8_send_message_never_raises
    (fun _ => Except.error (PyError.requestError "boom")) "hello").2.1 _ rfl

/-- C5: `get_api_answer` returns the parsed body exactly on a 200
exchange; any non-200 status raises `HTTPStatusError` (no body is
returned); any transport failure raises `RequestError` wrapping the
underlying cause. -/
theorem c5_get_api_answer_cases (transport : Int → HttpResult) (ts : Int) :
    (∀ body, transport ts = HttpResult.response 200 body →
       get_api_answer transport ts = Except.ok body)
  ∧ (∀ code body, transport ts = HttpResult.response code body → code ≠ 200 →
       get_api_answer transport ts
         = Except.error (PyError.httpStatusError "Ответ не получен"))
  ∧ (∀ m, transport ts = HttpResult.transportError m →
       get_api_answer transport ts
         = Except.error (PyError.requestError ("Ошибка при запросе к API: " ++ m))) := by
  refine ⟨?_, ?_, ?_⟩
  · intro body h
    simp [get_api_answer, h]
  · intro code body h hne
    simp [get_api_answer, h, hne]
  · intro m h
    simp [get_api_answer, h]

/-- Witness for C5 at a 200 exchange, a 503 exchange and a transport
failure. -/
theorem c5_witness :
    get_api_answer (fun _ => HttpResult.response 200 (PyVal.dict [])) 0
      = Except.ok (PyVal.dict [])
  ∧ get_api_answer (fun _ => HttpResult.response 503 PyVal.none) 0
      = Except.error (PyError.httpStatusError "Ответ не получен")
  ∧ get_api_answer (fun _ => HttpResult.transportError "connection refused") 0
      = Except.error
          (PyError.requestError ("Ошибка при запросе к API: " ++ "connection refused")) :=
  ⟨(c5_get_api_answer_cases (fun _ => HttpResult.response 200 (PyVal.dict [])) 0).1
      (PyVal.dict []) rfl,
   (c5_get_api_answer_cases (fun _ => HttpResult.response 503 PyVal.none) 0).2.1
      503 PyVal.none rfl (by decide),
   (c5_get_api_answer_cases (fun _ => HttpResult.transportError "connection refused") 0).2.2
      "connection refused" rfl⟩

/-- C4: `check_response` raises `TypeError` on every non-dict body and on
every dict whose `homeworks` value is absent or not a list; on every dict
whose `homeworks` value is a list (the empty list included) it returns
that list unchanged. -/
theorem c4_check_response_shape (response : PyVal) :
    (isDict response = false →
       check_response response
         = Except.error (PyError.typeError "Не является словарем"))
  ∧ (∀ entries, response = PyVal.dict entries →
       (isList (dictGet entries "homeworks") = false →
          check_response response
            = Except.error (PyError.typeError "Не является списком"))
     ∧ (∀ items, dictGet entries "homeworks" = PyVal.list items →
          check_response response = Except.ok (PyVal.list items))) := by
  constructor
  · intro h
    cases response <;> first | rfl | simp [isDict] at h
  · intro entries he
    subst he
    constructor
    · intro h
      cases hd : dictGet entries "homeworks" <;>
        simp [check_response, hd, isList] at h ⊢
    · intro items hd
      simp [check_response, hd]

/-- Witness for C4 at a non-dict body, a dict with a scalar `homeworks`,
a dict missing the key, and a dict with an empty list. -/
theorem c4_witness :
    check_response (PyVal.str "oops")
      = Except.error (PyError.typeError "Не является словарем")
  ∧ check_response (PyVal.dict [("homeworks", PyVal.int 3)])
      = Except.error (PyError.typeError "Не является списком")
  ∧ check_response (PyVal.dict [])
      = Except.error (PyError.typeError "Не является списком")
  ∧ check_response (PyVal.dict [("homeworks", PyVal.list [])])
      = Except.ok (PyVal.list []) :=
  ⟨(c4_check_response_shape (PyVal.str "oops")).1 rfl,
   ((c4_check_response_shape _).2 [("homeworks", PyVal.int 3)] rfl).1 rfl,
   ((c4_check_response_shape _).2 [] rfl).1 rfl,
   ((c4_check_response_shape _).2 [("homeworks", PyVal.list [])] rfl).2 [] rfl⟩

/-- Both arms of the loop body sleep `RETRY_PERIOD` in the `finally`
arm. -/
theorem runCycle_sleep (env : Env) (ts : Int) :
    (runCycle env ts).sleep = RETRY_PERIOD := by
  cases h : cycleBody env ts <;> simp [runCycle, h]

/-- The loop never reassigns the timestamp. -/
theorem runCycle_nextTimestamp (env : Env) (ts : Int) :
    (runCycle env ts).nextTimestamp = ts := by
  cases h : cycleBody env ts <;> simp [runCycle, h]

/-- Each iteration passes its current timestamp to `get_api_answer`. -/
theorem runCycle_usedTimestamp (env : Env) (ts : Int) :
    (runCycle env ts).usedTimestamp = ts := by
  cases h : cycleBody env ts <;> simp [runCycle, h]

/-- Every iteration observed in a run from timestamp `ts` both calls the
API with `ts` and hands `ts` to the next iteration. -/
theorem runLoop_timestamps (env : Env) (ts : Int) :
    ∀ n r, r ∈ runLoop env ts n → r.usedTimestamp = ts ∧ r.nextTimestamp = ts := by
  intro n
  induction n with
  | zero =>
    intro r h
    simp [runLoop] at h
  | succ k ih =>
    intro r h
    simp only [runLoop] at h
    rcases List.mem_cons.mp h with h1 | h2
    · subst h1
      exact ⟨runCycle_usedTimestamp env ts, runCycle_nextTimestamp env ts⟩
    · rw [runCycle_nextTimestamp] at h2
      exact ih r h2

/-- C1: every error raised inside a cycle is caught at the loop boundary,
converted to `"Возникновение ошибки: " + str(e)`, handed to the notifier,
and the `finally` arm sleeps the fixed `RETRY_PERIOD = 600`; a successful
cycle sends the rendered message; in both cases the loop continues (every
requested iteration produces exactly one observed cycle), so no error
raised inside a cycle terminates the process. -/
theorem c1_loop_catches_everything (env : Env) (ts : Int) :
    RETRY_PERIOD = 600
  ∧ (runCycle env ts).sleep = RETRY_PERIOD
  ∧ (runCycle env ts).nextTimestamp = ts
  ∧ (∀ e, cycleBody env ts = Except.error e →
       (runCycle env ts).caught = Option.some e
     ∧ (runCycle env ts).sent = ["Возникновение ошибки: " ++ errStr e])
  ∧ (∀ m, cycleBody env ts = Except.ok m →
       (runCycle env ts).caught = Option.none ∧ (runCycle env ts).sent = [m])
  ∧ (∀ n, (runLoop env ts n).length = n) := by
  refine ⟨rfl, runCycle_sleep env ts, runCycle_nextTimestamp env ts, ?_, ?_, ?_⟩
  · intro e he
    simp [runCycle, he]
  · intro m hm
    simp [runCycle, hm]
  · intro n
    induction n generalizing ts with
    | zero => rfl
    | succ k ih => simp only [runLoop, List.length_cons, ih]

/-- Witness for C1 at a transport failure and at a successful cycle. -/
theorem c1_witness :
    ((runCycle ⟨fun _ => HttpResult.transportError "refused",
        fun _ => Except.ok ()⟩ 0).caught
      = Option.some (PyError.requestError ("Ошибка при запросе к API: " ++ "refused"))
   ∧ (runCycle ⟨fun _ => HttpResult.transportError "refused",
        fun _ => Except.ok ()⟩ 0).sent
      = ["Возникновение ошибки: "
          ++ errStr (PyError.requestError ("Ошибка при запросе к API: " ++ "refused"))])
  ∧ ((runCycle ⟨fun _ => HttpResult.response 200 (PyVal.dict [("homeworks", PyVal.list
        [PyVal.dict [("homework_name", PyVal.str "hw"), ("status", PyVal.str "approved")]])]),
        fun _ => Except.ok ()⟩ 0).caught = Option.none
   ∧ (runCycle ⟨fun _ => HttpResult.response 200 (PyVal.dict [("homeworks", PyVal.list
        [PyVal.dict [("homework_name", PyVal.str "hw"), ("status", PyVal.str "approved")]])]),
        fun _ => Except.ok ()⟩ 0).sent
      = ["Изменился статус проверки работы \"hw\". Работа проверена: ревьюеру всё понравилось. Ура!"]) :=
  ⟨(c1_loop_catches_everything
      ⟨fun _ => HttpResult.transportError "refused", fun _ => Except.ok ()⟩ 0).2.2.2.1
      (PyError.requestError ("Ошибка при запросе к API: " ++ "refused")) rfl,
   (c1_loop_catches_everything
      ⟨fun _ => HttpResult.response 200 (PyVal.dict [("homeworks", PyVal.list
        [PyVal.dict [("homework_name", PyVal.str "hw"), ("status", PyVal.str "approved")]])]),
        fun _ => Except.ok ()⟩ 0).2.2.2.2.1
      "Изменился статус проверки работы \"hw\". Работа проверена: ревьюеру всё понравилось. Ура!" rfl⟩

/-- C9: with a valid body carrying an empty homeworks list, `homeworks[0]`
raises `IndexError`, the catch-all arm reports it as a generic error
notification, the cycle still sleeps and the loop continues — the empty
list is never a quiet no-notification cycle. -/
theorem c9_empty_homeworks_cycle (deliver : String → Except PyError Unit) :
    (runCycle ⟨fun _ => HttpResult.response 200
        (PyVal.dict [("homeworks", PyVal.list [])]), deliver⟩ 0).caught
      = Option.some (PyError.indexError "list index out of range")
  ∧ (runCycle ⟨fun _ => HttpResult.response 200
        (PyVal.dict [("homeworks", PyVal.list [])]), deliver⟩ 0).sent
      = ["Возникновение ошибки: list index out of range"]
  ∧ (runCycle ⟨fun _ => HttpResult.response 200
        (PyVal.dict [("homeworks", PyVal.list [])]), deliver⟩ 0).sleep = RETRY_PERIOD
  ∧ (runCycle ⟨fun _ => HttpResult.response 200
        (PyVal.dict [("homeworks", PyVal.list [])]), deliver⟩ 0).nextTimestamp = 0 := by
  have h : cycleBody ⟨fun _ => HttpResult.response 200
      (PyVal.dict [("homeworks", PyVal.list [])]), deliver⟩ 0
      = Except.error (PyError.indexError "list index out of range") := rfl
  refine ⟨by simp [runCycle, h], by simp [runCycle, h, errStr], ?_, ?_⟩
  · exact runCycle_sleep _ _
  · exact runCycle_nextTimestamp _ _

/-- C7: the poll cursor starts at zero and is never advanced — every
observed iteration calls the API with timestamp `0` and passes `0` on —
and the cycle outcome depends only on the first record of the homeworks
list: the tail of the list never changes the result. -/
theorem c7_cursor_constant (env : Env) (n : Nat) :
    (∀ r, r ∈ runLoop env 0 n → r.usedTimestamp = 0 ∧ r.nextTimestamp = 0)
  ∧ (∀ (deliver : String → Except PyError Unit) (hw : PyVal)
       (tail1 tail2 : List PyVal) (rest : List (String × PyVal)) (ts : Int),
      runCycle ⟨fun _ => HttpResult.response 200
          (PyVal.dict (("homeworks", PyVal.list (hw :: tail1)) :: rest)), deliver⟩ ts
    = runCycle ⟨fun _ => HttpResult.response 200
          (PyVal.dict (("homeworks", PyVal.list (hw :: tail2)) :: rest)), deliver⟩ ts) := by
  constructor
  · exact runLoop_timestamps env 0 n
  · intro deliver hw tail1 tail2 rest ts
    have hb : ∀ t : List PyVal,
        cycleBody ⟨fun _ => HttpResult.response 200
          (PyVal.dict (("homeworks", PyVal.list (hw :: t)) :: rest)), deliver⟩ ts
        = parse_status hw := by
      intro t
      simp [cycleBody, get_api_answer, check_response, pyGet, dictGet, pyIndex]
    simp only [runCycle, hb]

/-- Witness for C7: one observed iteration of a concrete run uses and
passes on timestamp zero, and two bodies sharing a first record give
identical cycles. -/
theorem c7_witness :
    ((runCycle ⟨fun _ => HttpResult.transportError "x", fun _ => Except.ok ()⟩ 0).usedTimestamp = 0
   ∧ (runCycle ⟨fun _ => HttpResult.transportError "x", fun _ => Except.ok ()⟩ 0).nextTimestamp = 0)
  ∧ runCycle ⟨fun _ => HttpResult.response 200
        (PyVal.dict [("homeworks", PyVal.list [PyVal.none])]), fun _ => Except.ok ()⟩ 5
    = runCycle ⟨fun _ => HttpResult.response 200
        (PyVal.dict [("homeworks", PyVal.list [PyVal.none, PyVal.int 1])]),
        fun _ => Except.ok ()⟩ 5 :=
  ⟨(c7_cursor_constant ⟨fun _ => HttpResult.transportError "x", fun _ => Except.ok ()⟩ 1).1
      (runCycle ⟨fun _ => HttpResult.transportError "x", fun _ => Except.ok ()⟩ 0)
      (by simp [runLoop]),
   (c7_cursor_constant ⟨fun _ => HttpResult.transportError "x", fun _ => Except.ok ()⟩ 1).2
      (fun _ => Except.ok ()) PyVal.none [] [PyVal.int 1] [] 5⟩

/-- C6 counterexample: empty-string credentials pass `check_tokens` (it
only tests `is None`), so the process starts and runs cycles with all
three credentials empty, contradicting the claimed non-empty check. -/
theorem c6_counterexample :
    check_tokens (Option.some "") (Option.some "") (Option.some "") = Except.ok ()
  ∧ ∃ cycles, mainRun (Option.some "") (Option.some "") (Option.some "")
      ⟨fun _ => HttpResult.transportError "down", fun _ => Except.ok ()⟩ 1
      = Except.ok cycles :=
  ⟨rfl, ⟨_, rfl⟩⟩

/-- C6 (amended): at startup, if any of the three credential strings is
missing (`None`), the process logs a critical diagnostic and exits via
`sys.exit` (a non-zero termination) before any poll cycle runs; the
process starts whenever all three are present, an empty string included. -/
theorem c6_startup_gate (p t c : Option String) (env : Env) (n : Nat) :
    ((p = Option.none ∨ t = Option.none ∨ c = Option.none) →
       mainRun p t c env n = Except.error "Программа остановлена")
  ∧ (∀ ps ts cs, p = Option.some ps → t = Option.some ts → c = Option.some cs →
       mainRun p t c env n = Except.ok (runLoop env 0 n)) := by
  constructor
  · intro h
    rcases h with h | h | h
    · subst h
      simp [mainRun, check_tokens, checkEnvVars]
    · subst h
      cases p with
      | none => simp [mainRun, check_tokens, checkEnvVars]
      | some a => simp [mainRun, check_tokens, checkEnvVars]
    · subst h
      cases p with
      | none => simp [mainRun, check_tokens, checkEnvVars]
      | some a =>
        cases t with
        | none => simp [mainRun, check_tokens, checkEnvVars]
        | some b => simp [mainRun, check_tokens, checkEnvVars]
  · intro ps ts cs hp ht hc
    subst hp; subst ht; subst hc
    simp [mainRun, check_tokens, checkEnvVars]

/-- Witness for C6 at a missing first credential and at three present
credentials. -/
theorem c6_witness :
    mainRun Option.none (Option.some "t") (Option.some "c")
      ⟨fun _ => HttpResult.transportError "down", fun _ => Except.ok ()⟩ 1
      = Except.error "Программа остановлена"
  ∧ mainRun (Option.some "p") (Option.some "t") (Option.some "c")
      ⟨fun _ => HttpResult.transportError "down", fun _ => Except.ok ()⟩ 1
      = Except.ok (runLoop
          ⟨fun _ => HttpResult.transportError "down", fun _ => Except.ok ()⟩ 0 1) :=
  ⟨(c6_startup_gate Option.none (Option.some "t") (Option.some "c")
      ⟨fun _ => HttpResult.transportError "down", fun _ => Except.ok ()⟩ 1).1 (Or.inl rfl),
   (c6_startup_gate (Option.some "p") (Option.some "t") (Option.some "c")
      ⟨fun _ => HttpResult.transportError "down", fun _ => Except.ok ()⟩ 1).2
      "p" "t" "c" rfl rfl rfl⟩

end HomeworkBot
